import Mathlib

/-
Shallow embedding of `src/rendering.py` (class `ELearningVisualizer`).

The module is a pygame dashboard.  We model the parts of the class that
carry observable behaviour:

* the colour table `COLORS` and the fixed symbol / action-name tables;
* the per-instance animation state (`frame_count`, `last_action`,
  `action_display_timer`) mutated by `render`;
* the derived display logic of each panel (difficulty label and colour,
  AAC button tiers, engagement-bar colour, reward colour, the agent
  callout, the metric-bar fill width);
* the event loop at the end of `render` that decides the boolean return
  value.

Python floats are modelled as rationals (`ℚ`); all numeric literals in
the source are short decimals, and every comparison performed by the
code compares a value against the very literal the spec probes with, so
the rational model agrees with IEEE evaluation at every point used
below.  Python ints are modelled as `ℤ`.  The screen, fonts and blitting
have no observable outcome beyond the draw parameters we record in a
`Frame` value, so `render` returns the successor state, the frame data,
and the boolean that the Python method returns.
-/

set_option maxHeartbeats 1000000

namespace Rendering

/-- The keys of the class-level `COLORS` dictionary. -/
inductive Color where
  | background
  | panel
  | button
  | button_hover
  | button_active
  | text
  | text_secondary
  | accent
  | success
  | warning
  | error
  | engagement_high
  | engagement_med
  | engagement_low
  deriving DecidableEq, Repr

/-- The RGB triples of the `COLORS` dictionary (rendering.py lines 24-39). -/
def COLORS : Color → ℤ × ℤ × ℤ
  | .background => (30, 30, 40)
  | .panel => (50, 50, 60)
  | .button => (70, 130, 180)
  | .button_hover => (100, 160, 210)
  | .button_active => (50, 200, 100)
  | .text => (255, 255, 255)
  | .text_secondary => (200, 200, 200)
  | .accent => (255, 165, 0)
  | .success => (76, 175, 80)
  | .warning => (255, 193, 7)
  | .error => (244, 67, 54)
  | .engagement_high => (76, 175, 80)
  | .engagement_med => (255, 193, 7)
  | .engagement_low => (244, 67, 54)

/-- `self.aac_symbols` (lines 62-65). -/
def aac_symbols : List String :=
  ["I want", "Help", "Yes", "No", "More", "Stop"]

/-- `action_names` in `_draw_agent_info_panel` (lines 333-341). -/
def action_names : List String :=
  ["Keep current layout", "Optimize AAC buttons", "Increase difficulty",
   "Decrease difficulty", "Provide hint", "Predict next word",
   "Adjust button sizes"]

/-- The mutable per-instance state set up in `__init__` (lines 46-73)
that `render` reads and writes. -/
structure VisualizerState where
  width : ℤ
  height : ℤ
  fps : ℤ
  frame_count : ℤ
  last_action : Option ℤ
  action_display_timer : ℤ
  deriving DecidableEq, Repr

/-- A freshly constructed `ELearningVisualizer()` with the default
window size: `fps = 4`, `frame_count = 0`, `last_action = None`,
`action_display_timer = 0`. -/
def initState : VisualizerState :=
  { width := 1200, height := 800, fps := 4, frame_count := 0,
    last_action := none, action_display_timer := 0 }

/-- The `env_state` dictionary: each recognized key either present
(`some`) or absent (`none`); `dict.get(key, default)` becomes
`Option.getD`. -/
structure EnvState where
  lesson_difficulty : Option ℚ
  student_accuracy : Option ℚ
  engagement_level : Option ℚ
  hints_requested : Option ℤ
  time_on_lesson : Option ℤ
  interface_efficiency : Option ℚ
  aac_button_usage : Option (List ℚ)
  step : Option ℤ
  deriving DecidableEq, Repr

/-- A snapshot dictionary with none of the recognized keys present. -/
def emptyEnv : EnvState :=
  { lesson_difficulty := none, student_accuracy := none,
    engagement_level := none, hints_requested := none,
    time_on_lesson := none, interface_efficiency := none,
    aac_button_usage := none, step := none }

/-- A pygame event: its `type` and (for key events) `key` attribute. -/
structure Event where
  type : ℤ
  key : ℤ
  deriving DecidableEq, Repr

/-- `pygame.QUIT`. -/
def QUIT : ℤ := 256

/-- `pygame.KEYDOWN`. -/
def KEYDOWN : ℤ := 768

/-- `pygame.K_ESCAPE`. -/
def K_ESCAPE : ℤ := 27

/-- `pygame.K_q` (key-press events for both `q` and `Q` carry this
unshifted keycode). -/
def K_q : ℤ := 113

/-- The event loop at the end of `render` (lines 136-143): `False` on a
`QUIT` event or a `KEYDOWN` event whose key is Escape or Q, `True`
once the drained events are exhausted. -/
def handle_events : List Event → Bool
  | [] => true
  | e :: rest =>
    if e.type = QUIT then false
    else if e.type = KEYDOWN ∧ (e.key = K_ESCAPE ∨ e.key = K_q) then false
    else handle_events rest

/-- Line 175: `diff_text = "Easy" if difficulty < 0.4 else "Medium" if
difficulty < 0.7 else "Hard"`. -/
def diff_text (difficulty : ℚ) : String :=
  if difficulty < 0.4 then "Easy"
  else if difficulty < 0.7 then "Medium"
  else "Hard"

/-- Line 176: `diff_color = COLORS['success'] if 0.4 <= difficulty <= 0.7
else COLORS['warning']`. -/
def diff_color (difficulty : ℚ) : Color :=
  if 0.4 ≤ difficulty ∧ difficulty ≤ 0.7 then Color.success
  else Color.warning

/-- Lines 227-232: tier of one AAC button from its own usage value. -/
def button_color (usage : ℚ) : Color :=
  if 0.25 < usage then Color.button_active
  else if 0.15 < usage then Color.button_hover
  else Color.button

/-- Line 220: the default usage substituted when `aac_button_usage` is
absent, `np.array([0.17] * 6)`. -/
def default_usage : List ℚ := List.replicate 6 0.17

/-- Lines 222-249: the loop `for i, (symbol, usage) in
enumerate(zip(self.aac_symbols, button_usage))`, recording for each
drawn button its symbol, its colour tier and the usage value whose
percentage is printed on it. -/
def draw_aac_buttons (button_usage : List ℚ) : List (String × Color × ℚ) :=
  (aac_symbols.zip button_usage).map (fun p => (p.1, button_color p.2, p.2))

/-- Lines 274-278: colour of the engagement metric bar. -/
def engagement_color (engagement : ℚ) : Color :=
  if 0.7 < engagement then Color.engagement_high
  else if 0.4 < engagement then Color.engagement_med
  else Color.engagement_low

/-- Line 295: `COLORS['success'] if reward > 0 else COLORS['error']`. -/
def reward_color (reward : ℚ) : Color :=
  if 0 < reward then Color.success else Color.error

/-- What the agent panel draws for the visible action (lines 343-361):
either the highlighted callout with the resolved action name, or the
"Waiting for agent action..." placeholder. -/
inductive AgentDisplay where
  | callout (name : String)
  | waiting
  deriving DecidableEq, Repr

/-- Lines 343-361: `if action is not None and 0 <= action <
len(action_names)` resolve the name and draw the callout, else draw the
waiting placeholder. -/
def agent_action_display : Option ℤ → AgentDisplay
  | none => AgentDisplay.waiting
  | some a =>
    if 0 ≤ a ∧ a < (action_names.length : ℤ) then
      AgentDisplay.callout (action_names.getD a.toNat "")
    else AgentDisplay.waiting

/-- Line 389 of `_draw_metric_bar`: Python `int()` truncates toward
zero. -/
def py_int (q : ℚ) : ℤ := if q < 0 then ⌈q⌉ else ⌊q⌋

/-- Line 389: `filled_width = int(width * value)` — no clamping of
`value`. -/
def filled_width (width : ℤ) (value : ℚ) : ℤ := py_int ((width : ℚ) * value)

/-- The observable draw parameters of one frame: one field per datum
that a panel derives from the snapshot or the optional scalars. -/
structure Frame where
  difficultyLabel : String
  difficultyColor : Color
  hintsShown : ℤ
  timeShown : ℤ
  aacButtons : List (String × Color × ℚ)
  accuracyShown : ℚ
  engagementShown : ℚ
  engagementBarColor : Color
  efficiencyShown : ℚ
  rewardShown : Option (ℚ × Color)
  totalRewardShown : Option ℚ
  stepShown : ℤ
  episodeShown : Option ℤ
  agentPanel : AgentDisplay
  deriving DecidableEq, Repr

/-- Lines 113-119 of `render`: if `action is not None`, record it and
reset the countdown to `2 * self.fps`; then decrement the countdown if
still positive. -/
def update_action_state (s : VisualizerState) (action : Option ℤ) :
    VisualizerState :=
  let s1 : VisualizerState :=
    match action with
    | some a => { s with last_action := some a,
                         action_display_timer := 2 * s.fps }
    | none => s
  if 0 < s1.action_display_timer then
    { s1 with action_display_timer := s1.action_display_timer - 1 }
  else s1

/-- `render(env_state, action, reward, episode, total_reward)`
(lines 93-143), with the pending event queue passed explicitly.
Returns the successor visualizer state, the frame's draw data, and the
boolean return value. -/
def render (s : VisualizerState) (env_state : EnvState) (action : Option ℤ)
    (reward : Option ℚ) (episode : Option ℤ) (total_reward : Option ℚ)
    (events : List Event) : VisualizerState × Frame × Bool :=
  let s2 : VisualizerState := update_action_state s action
  let difficulty : ℚ := (env_state.lesson_difficulty).getD 0.5
  let engagement : ℚ := (env_state.engagement_level).getD 0.8
  let visible_action : Option ℤ :=
    if 0 < s2.action_display_timer then s2.last_action else none
  let frame : Frame :=
    { difficultyLabel := diff_text difficulty
      difficultyColor := diff_color difficulty
      hintsShown := (env_state.hints_requested).getD 0
      timeShown := (env_state.time_on_lesson).getD 0
      aacButtons := draw_aac_buttons ((env_state.aac_button_usage).getD default_usage)
      accuracyShown := (env_state.student_accuracy).getD 0.7
      engagementShown := engagement
      engagementBarColor := engagement_color engagement
      efficiencyShown := (env_state.interface_efficiency).getD 0.5
      rewardShown := Option.map (fun r => (r, reward_color r)) reward
      totalRewardShown := total_reward
      stepShown := (env_state.step).getD 0
      episodeShown := episode
      agentPanel := agent_action_display visible_action }
  let s3 : VisualizerState := { s2 with frame_count := s2.frame_count + 1 }
  (s3, frame, handle_events events)

/-- The arguments of one `render` call. -/
structure RenderCall where
  env_state : EnvState
  action : Option ℤ
  reward : Option ℚ
  episode : Option ℤ
  total_reward : Option ℚ
  events : List Event
  deriving DecidableEq, Repr

/-- Apply `render` to the arguments packed in a `RenderCall`. -/
def render_call (s : VisualizerState) (c : RenderCall) :
    VisualizerState × Frame × Bool :=
  render s c.env_state c.action c.reward c.episode c.total_reward c.events

/-- The visualizer state after a sequence of `render` calls. -/
def run_calls (s : VisualizerState) : List RenderCall → VisualizerState
  | [] => s
  | c :: cs => run_calls (render_call s c).1 cs

/-- The agent-panel display of each frame along a sequence of `render`
calls. -/
def agent_displays (s : VisualizerState) : List RenderCall → List AgentDisplay
  | [] => []
  | c :: cs =>
    (render_call s c).2.1.agentPanel :: agent_displays (render_call s c).1 cs

/-- A `render` call with no snapshot keys, no optional scalars and no
pending events. -/
def noArgCall : RenderCall :=
  { env_state := emptyEnv, action := none, reward := none,
    episode := none, total_reward := none, events := [] }

/-- A `render` call that supplies only the `action` argument. -/
def actionCall (a : ℤ) : RenderCall :=
  { noArgCall with action := some a }

/-! ### Projection lemmas for `render` -/

theorem render_state_eq (s : VisualizerState) (env_state : EnvState)
    (action : Option ℤ) (reward : Option ℚ) (episode : Option ℤ)
    (total_reward : Option ℚ) (events : List Event) :
    (render s env_state action reward episode total_reward events).1 =
      { update_action_state s action with
        frame_count := (update_action_state s action).frame_count + 1 } := rfl

theorem render_agentPanel_eq (s : VisualizerState) (env_state : EnvState)
    (action : Option ℤ) (reward : Option ℚ) (episode : Option ℤ)
    (total_reward : Option ℚ) (events : List Event) :
    (render s env_state action reward episode total_reward events).2.1.agentPanel =
      agent_action_display
        (if 0 < (update_action_state s action).action_display_timer then
          (update_action_state s action).last_action
        else none) := rfl

theorem render_aacButtons_eq (s : VisualizerState) (env_state : EnvState)
    (action : Option ℤ) (reward : Option ℚ) (episode : Option ℤ)
    (total_reward : Option ℚ) (events : List Event) :
    (render s env_state action reward episode total_reward events).2.1.aacButtons =
      draw_aac_buttons ((env_state.aac_button_usage).getD default_usage) := rfl

theorem render_rewardShown_eq (s : VisualizerState) (env_state : EnvState)
    (action : Option ℤ) (reward : Option ℚ) (episode : Option ℤ)
    (total_reward : Option ℚ) (events : List Event) :
    (render s env_state action reward episode total_reward events).2.1.rewardShown =
      Option.map (fun r => (r, reward_color r)) reward := rfl

theorem render_returns_eq (s : VisualizerState) (env_state : EnvState)
    (action : Option ℤ) (reward : Option ℚ) (episode : Option ℤ)
    (total_reward : Option ℚ) (events : List Event) :
    (render s env_state action reward episode total_reward events).2.2 =
      handle_events events := rfl

/-! ### C2 — difficulty label and colour boundaries -/

/-- C2 counterexample: at `difficulty = 0.70` the code draws the label
"Hard" (the bucket test `difficulty < 0.7` is strict), not "Medium" as
the claim states; the colour at that point is indeed the success
colour. -/
theorem C2_counterexample : diff_text 0.7 = "Hard" ∧
    diff_text 0.7 ≠ "Medium" ∧ diff_color 0.7 = Color.success := by
  have h : diff_text 0.7 = "Hard" := by
    rw [diff_text, if_neg (by norm_num), if_neg (by norm_num)]
  refine ⟨h, ?_, ?_⟩
  · rw [h]
    decide
  · rw [diff_color, if_pos (by norm_num)]

/-- C2 (amended): difficulty 0.39 gives label "Easy" with the warning
colour, 0.40 gives "Medium" with the success colour, 0.70 gives "Hard"
with the success colour (the strict bucket `< 0.7` excludes 0.70 while
the inclusive colour band `[0.4, 0.7]` contains it), and 0.71 gives
"Hard" with the warning colour; the bucket and the colour band are
independent computations. -/
theorem C2_difficulty_boundaries :
    diff_text 0.39 = "Easy" ∧ diff_color 0.39 = Color.warning ∧
    diff_text 0.4 = "Medium" ∧ diff_color 0.4 = Color.success ∧
    diff_text 0.7 = "Hard" ∧ diff_color 0.7 = Color.success ∧
    diff_text 0.71 = "Hard" ∧ diff_color 0.71 = Color.warning := by
  refine ⟨?_, ?_, ?_, ?_, ?_, ?_, ?_, ?_⟩
  · rw [diff_text, if_pos (by norm_num)]
  · rw [diff_color, if_neg (by norm_num)]
  · rw [diff_text, if_neg (by norm_num), if_pos (by norm_num)]
  · rw [diff_color, if_pos (by norm_num)]
  · rw [diff_text, if_neg (by norm_num), if_neg (by norm_num)]
  · rw [diff_color, if_pos (by norm_num)]
  · rw [diff_text, if_neg (by norm_num), if_neg (by norm_num)]
  · rw [diff_color, if_neg (by norm_num)]

/-! ### C4 — engagement bar colour tiers -/

/-- C4: the engagement bar's colour tier is high for engagement above
0.7, medium for engagement in (0.4, 0.7], low otherwise; in particular
0.71 is high, 0.70 medium, 0.41 medium and 0.40 low. -/
theorem C4_engagement_tiers (e : ℚ) :
    (0.7 < e → engagement_color e = Color.engagement_high) ∧
    (0.4 < e → e ≤ 0.7 → engagement_color e = Color.engagement_med) ∧
    (e ≤ 0.4 → engagement_color e = Color.engagement_low) ∧
    engagement_color 0.71 = Color.engagement_high ∧
    engagement_color 0.7 = Color.engagement_med ∧
    engagement_color 0.41 = Color.engagement_med ∧
    engagement_color 0.4 = Color.engagement_low := by
  refine ⟨?_, ?_, ?_,
    by rw [engagement_color, if_pos (by norm_num)],
    by rw [engagement_color, if_neg (by norm_num), if_pos (by norm_num)],
    by rw [engagement_color, if_neg (by norm_num), if_pos (by norm_num)],
    by rw [engagement_color, if_neg (by norm_num), if_neg (by norm_num)]⟩
  · intro h
    simp only [engagement_color, if_pos h]
  · intro h1 h2
    rw [engagement_color, if_neg (by linarith), if_pos h1]
  · intro h
    rw [engagement_color, if_neg (by linarith), if_neg (by linarith)]

/-- C4 witness: concrete points in each tier via `C4_engagement_tiers`. -/
theorem C4_witness :
    engagement_color 0.9 = Color.engagement_high ∧
    engagement_color 0.5 = Color.engagement_med ∧
    engagement_color 0.1 = Color.engagement_low :=
  ⟨(C4_engagement_tiers 0.9).1 (by norm_num),
   (C4_engagement_tiers 0.5).2.1 (by norm_num) (by norm_num),
   (C4_engagement_tiers 0.1).2.2.1 (by norm_num)⟩

/-! ### C5 — AAC button tiers depend only on each button's own usage -/

/-- C5: for any six usage values, the drawn buttons are exactly the six
fixed symbols, each coloured by `button_color` of its own usage value
alone; the tier is active above 0.25, hover in (0.15, 0.25], base
otherwise. -/
theorem C5_button_tiers (u0 u1 u2 u3 u4 u5 : ℚ) :
    draw_aac_buttons [u0, u1, u2, u3, u4, u5] =
      [("I want", button_color u0, u0), ("Help", button_color u1, u1),
       ("Yes", button_color u2, u2), ("No", button_color u3, u3),
       ("More", button_color u4, u4), ("Stop", button_color u5, u5)] ∧
    (∀ u : ℚ,
      (0.25 < u → button_color u = Color.button_active) ∧
      (0.15 < u → u ≤ 0.25 → button_color u = Color.button_hover) ∧
      (u ≤ 0.15 → button_color u = Color.button)) := by
  refine ⟨rfl, fun u => ⟨?_, ?_, ?_⟩⟩
  · intro h
    simp only [button_color, if_pos h]
  · intro h1 h2
    rw [button_color, if_neg (by linarith), if_pos h1]
  · intro h
    rw [button_color, if_neg (by linarith), if_neg (by linarith)]

/-- C5 witness: a concrete six-value usage vector hitting all three
tiers, via `C5_button_tiers`. -/
theorem C5_witness :
    draw_aac_buttons [0.3, 0.2, 0.1, 0.26, 0.15, 0.25] =
      [("I want", button_color 0.3, 0.3), ("Help", button_color 0.2, 0.2),
       ("Yes", button_color 0.1, 0.1), ("No", button_color 0.26, 0.26),
       ("More", button_color 0.15, 0.15), ("Stop", button_color 0.25, 0.25)] ∧
    button_color 0.3 = Color.button_active ∧
    button_color 0.2 = Color.button_hover ∧
    button_color 0.1 = Color.button :=
  ⟨(C5_button_tiers 0.3 0.2 0.1 0.26 0.15 0.25).1,
   ((C5_button_tiers 0.3 0.2 0.1 0.26 0.15 0.25).2 0.3).1 (by norm_num),
   ((C5_button_tiers 0.3 0.2 0.1 0.26 0.15 0.25).2 0.2).2.1 (by norm_num)
     (by norm_num),
   ((C5_button_tiers 0.3 0.2 0.1 0.26 0.15 0.25).2 0.1).2.2 (by norm_num)⟩

/-! ### C10 — zero reward is drawn in the error colour -/

/-- C10: whenever the reward argument is supplied, the "Last Reward"
text is drawn in `reward_color reward`; the success colour is used only
for strictly positive rewards, so a reward of exactly 0 is drawn in the
error colour. -/
theorem C10_zero_reward_error (s : VisualizerState) (env_state : EnvState)
    (action : Option ℤ) (episode : Option ℤ) (total_reward : Option ℚ)
    (events : List Event) (r : ℚ) :
    (render s env_state action (some r) episode total_reward events).2.1.rewardShown =
      some (r, reward_color r) ∧
    reward_color 0 = Color.error ∧
    (r ≤ 0 → reward_color r = Color.error) ∧
    (0 < r → reward_color r = Color.success) := by
  refine ⟨rfl, by rw [reward_color, if_neg (by norm_num)], ?_, ?_⟩
  · intro h
    rw [reward_color, if_neg (by linarith)]
  · intro h
    simp only [reward_color, if_pos h]

/-- C10 witness: a render call with reward 0 on a fresh visualizer, via
`C10_zero_reward_error`. -/
theorem C10_witness :
    (render initState emptyEnv none (some 0) none none []).2.1.rewardShown =
      some (0, reward_color 0) ∧ reward_color 0 = Color.error :=
  ⟨(C10_zero_reward_error initState emptyEnv none none none [] 0).1,
   (C10_zero_reward_error initState emptyEnv none none none [] 0).2.2.1
     (by norm_num)⟩

/-! ### C8 — metric-bar fill width is unclamped truncation -/

/-- C8: for every track width `w > 0` and every value `v` (clamping is
absent), the filled width is the Python `int` truncation of `w * v`;
values above 1 yield a fill at least as wide as the track (strictly
wider as soon as `w * v ≥ w + 1`), negative values yield a non-positive
(empty) fill, and values in `[0, 1]` stay within the track — no error
is possible since the function is total. -/
theorem C8_unclamped_fill (w : ℤ) (v : ℚ) (hw : 0 < w) :
    filled_width w v = py_int ((w : ℚ) * v) ∧
    (1 < v → w ≤ filled_width w v) ∧
    (((w : ℚ) + 1 ≤ (w : ℚ) * v) → w < filled_width w v) ∧
    (v < 0 → filled_width w v ≤ 0) ∧
    (0 ≤ v → v ≤ 1 → 0 ≤ filled_width w v ∧ filled_width w v ≤ w) := by
  have hwq : (0 : ℚ) < (w : ℚ) := by exact_mod_cast hw
  refine ⟨rfl, ?_, ?_, ?_, ?_⟩
  · intro h
    have hlt : (w : ℚ) < (w : ℚ) * v := by
      calc (w : ℚ) = (w : ℚ) * 1 := by ring
      _ < (w : ℚ) * v := by
        exact mul_lt_mul_of_pos_left h hwq
    have hpos : (0 : ℚ) ≤ (w : ℚ) * v := le_trans (le_of_lt hwq) (le_of_lt hlt)
    rw [filled_width, py_int, if_neg (not_lt.mpr hpos)]
    exact Int.le_floor.mpr (le_of_lt hlt)
  · intro h
    have hpos : (0 : ℚ) ≤ (w : ℚ) * v := by
      have : (0 : ℚ) < (w : ℚ) + 1 := by linarith
      linarith
    rw [filled_width, py_int, if_neg (not_lt.mpr hpos)]
    have : w + 1 ≤ ⌊(w : ℚ) * v⌋ := Int.le_floor.mpr (by push_cast; linarith)
    omega
  · intro h
    have hneg : (w : ℚ) * v < 0 := mul_neg_of_pos_of_neg hwq h
    rw [filled_width, py_int, if_pos hneg]
    exact Int.ceil_le.mpr (by push_cast; linarith)
  · intro h0 h1
    have hpos : (0 : ℚ) ≤ (w : ℚ) * v := mul_nonneg (le_of_lt hwq) h0
    rw [filled_width, py_int, if_neg (not_lt.mpr hpos)]
    constructor
    · exact Int.floor_nonneg.mpr hpos
    · have hle : (w : ℚ) * v ≤ (w : ℚ) := by
        calc (w : ℚ) * v ≤ (w : ℚ) * 1 :=
          mul_le_mul_of_nonneg_left h1 (le_of_lt hwq)
        _ = (w : ℚ) := by ring
      calc ⌊(w : ℚ) * v⌋ ≤ ⌊(w : ℚ)⌋ := Int.floor_mono hle
      _ = w := Int.floor_intCast w

/-- C8 witness: track width 400 with values 2 (overflowing fill),
-1/2 (empty fill) and 3/5 (fill inside the track), via
`C8_unclamped_fill`. -/
theorem C8_witness :
    ((400 : ℤ) ≤ filled_width 400 2) ∧
    (filled_width 400 (-1/2) ≤ 0) ∧
    (0 ≤ filled_width 400 (3/5) ∧ filled_width 400 (3/5) ≤ 400) :=
  ⟨(C8_unclamped_fill 400 2 (by norm_num)).2.1 (by norm_num),
   (C8_unclamped_fill 400 (-1/2) (by norm_num)).2.2.2.1 (by norm_num),
   (C8_unclamped_fill 400 (3/5) (by norm_num)).2.2.2.2 (by norm_num)
     (by norm_num)⟩

/-! ### C3 — default AAC button usage -/

/-- C3 counterexample: on a snapshot without the `aac_button_usage`
key, every drawn button carries the default usage value 0.17 (from
`np.array([0.17] * 6)`), and 0.17 is not the uniform 1/6 the claim
states. -/
theorem C3_counterexample :
    ((render initState emptyEnv none none none none []).2.1.aacButtons.map
      (fun b => b.2.2)) = List.replicate 6 (0.17 : ℚ) ∧
    (0.17 : ℚ) ≠ 1/6 := by
  constructor
  · rfl
  · norm_num

/-- C3 (amended): for every snapshot in which `aac_button_usage` is
absent, render substitutes the default usage 0.17 for each of the six
AAC buttons (each percentage label shows 0.17, i.e. 17.0%, and each
button lands in the hover tier since 0.17 > 0.15), and the call does
not fail — `render` is a total function. -/
theorem C3_default_usage (s : VisualizerState) (env_state : EnvState)
    (action : Option ℤ) (reward : Option ℚ) (episode : Option ℤ)
    (total_reward : Option ℚ) (events : List Event)
    (h : env_state.aac_button_usage = none) :
    (render s env_state action reward episode total_reward events).2.1.aacButtons =
      [("I want", Color.button_hover, 0.17), ("Help", Color.button_hover, 0.17),
       ("Yes", Color.button_hover, 0.17), ("No", Color.button_hover, 0.17),
       ("More", Color.button_hover, 0.17), ("Stop", Color.button_hover, 0.17)] := by
  have hb : button_color 0.17 = Color.button_hover := by
    rw [button_color, if_neg (by norm_num), if_pos (by norm_num)]
  have hd : draw_aac_buttons default_usage =
      [("I want", button_color 0.17, 0.17), ("Help", button_color 0.17, 0.17),
       ("Yes", button_color 0.17, 0.17), ("No", button_color 0.17, 0.17),
       ("More", button_color 0.17, 0.17), ("Stop", button_color 0.17, 0.17)] := rfl
  rw [render_aacButtons_eq, h, Option.getD_none, hd, hb]

/-- C3 witness: the amended default-usage behaviour at a concrete call
(fresh visualizer, snapshot with no keys), via `C3_default_usage`. -/
theorem C3_witness :
    (render initState emptyEnv none none none none []).2.1.aacButtons =
      [("I want", Color.button_hover, 0.17), ("Help", Color.button_hover, 0.17),
       ("Yes", Color.button_hover, 0.17), ("No", Color.button_hover, 0.17),
       ("More", Color.button_hover, 0.17), ("Stop", Color.button_hover, 0.17)] :=
  C3_default_usage initState emptyEnv none none none none [] rfl

/-! ### C6 — the boolean returned by `render` -/

theorem handle_events_false_iff (events : List Event) :
    handle_events events = false ↔
      ∃ e ∈ events, e.type = QUIT ∨
        (e.type = KEYDOWN ∧ (e.key = K_ESCAPE ∨ e.key = K_q)) := by
  induction events with
  | nil => simp [handle_events]
  | cons e rest ih =>
    by_cases h1 : e.type = QUIT
    · simp [handle_events, h1]
    · by_cases h2 : e.type = KEYDOWN ∧ (e.key = K_ESCAPE ∨ e.key = K_q)
      · simp [handle_events, h1, h2]
      · simp [handle_events, h1, h2, ih]

/-- C6: for every visualizer state, snapshot, optional scalar
arguments and pending events, `render` returns exactly
`handle_events events`, and that value is `false` precisely when the
drained events contain a window-close (`QUIT`) event or a key-press
(`KEYDOWN`) event for Escape or Q; the returned boolean therefore does
not depend on the snapshot or the optional scalar arguments. -/
theorem C6_quit_return (s : VisualizerState) (env_state : EnvState)
    (action : Option ℤ) (reward : Option ℚ) (episode : Option ℤ)
    (total_reward : Option ℚ) (events : List Event) :
    (render s env_state action reward episode total_reward events).2.2 =
      handle_events events ∧
    ((render s env_state action reward episode total_reward events).2.2 = false ↔
      ∃ e ∈ events, e.type = QUIT ∨
        (e.type = KEYDOWN ∧ (e.key = K_ESCAPE ∨ e.key = K_q))) :=
  ⟨rfl, by
    rw [render_returns_eq]
    exact handle_events_false_iff events⟩

/-! ### C7 — out-of-range visible actions never index the name table -/

/-- C7: a visible action index outside `[0, 7)` (negative or at least
7) makes the agent panel draw the waiting placeholder instead of
indexing the 7-entry `action_names` table, so no out-of-bounds lookup
occurs; an index inside `[0, 7)` is within the table's bounds and is
resolved and highlighted in the callout box. -/
theorem C7_action_range_guard (a : ℤ) :
    (a < 0 ∨ 7 ≤ a → agent_action_display (some a) = AgentDisplay.waiting) ∧
    (0 ≤ a → a < 7 →
      a.toNat < action_names.length ∧
      agent_action_display (some a) =
        AgentDisplay.callout (action_names.getD a.toNat "")) := by
  have hlen : (action_names.length : ℤ) = 7 := rfl
  constructor
  · intro h
    have hni : ¬(0 ≤ a ∧ a < (action_names.length : ℤ)) := by
      rw [hlen]
      omega
    simp only [agent_action_display, if_neg hni]
  · intro h0 h7
    have hi : 0 ≤ a ∧ a < (action_names.length : ℤ) := by
      rw [hlen]
      exact ⟨h0, h7⟩
    refine ⟨?_, by simp only [agent_action_display, if_pos hi]⟩
    have : action_names.length = 7 := rfl
    omega

/-- C7 witness: indices 9 and -1 fall back to the waiting placeholder
while index 4 resolves against the table, via
`C7_action_range_guard`. -/
theorem C7_witness :
    agent_action_display (some 9) = AgentDisplay.waiting ∧
    agent_action_display (some (-1)) = AgentDisplay.waiting ∧
    agent_action_display (some 4) =
      AgentDisplay.callout (action_names.getD (Int.toNat 4) "") :=
  ⟨(C7_action_range_guard 9).1 (Or.inr (by norm_num)),
   (C7_action_range_guard (-1)).1 (Or.inl (by norm_num)),
   ((C7_action_range_guard 4).2 (by norm_num) (by norm_num)).2⟩

/-! ### State-update lemmas for the action countdown -/

theorem update_timer_none (s : VisualizerState) :
    (update_action_state s none).action_display_timer =
      if 0 < s.action_display_timer then s.action_display_timer - 1
      else s.action_display_timer := by
  rw [update_action_state]
  split <;> rfl

theorem update_timer_some (s : VisualizerState) (a : ℤ) :
    (update_action_state s (some a)).action_display_timer =
      if 0 < 2 * s.fps then 2 * s.fps - 1 else 2 * s.fps := by
  rw [update_action_state]
  split <;> rfl

theorem update_last_action_none (s : VisualizerState) :
    (update_action_state s none).last_action = s.last_action := by
  rw [update_action_state]
  split <;> rfl

theorem update_last_action_some (s : VisualizerState) (a : ℤ) :
    (update_action_state s (some a)).last_action = some a := by
  rw [update_action_state]
  split <;> rfl

theorem update_fps (s : VisualizerState) (action : Option ℤ) :
    (update_action_state s action).fps = s.fps := by
  cases action <;> (rw [update_action_state]; split <;> rfl)

/-! ### C9 — the countdown timer never becomes negative -/

theorem render_call_timer_step (s : VisualizerState) (c : RenderCall)
    (h0 : 0 ≤ s.action_display_timer) (h8 : s.action_display_timer ≤ 8)
    (hfps : s.fps = 4) :
    0 ≤ (render_call s c).1.action_display_timer ∧
      (render_call s c).1.action_display_timer ≤ 8 ∧
      (render_call s c).1.fps = 4 := by
  have ht : (render_call s c).1.action_display_timer =
      (update_action_state s c.action).action_display_timer := rfl
  have hf : (render_call s c).1.fps = (update_action_state s c.action).fps := rfl
  rcases hc : c.action with _ | a
  · rw [ht, hf, hc, update_timer_none, update_fps]
    refine ⟨?_, ?_, hfps⟩ <;> (split <;> omega)
  · rw [ht, hf, hc, update_timer_some, update_fps, hfps]
    refine ⟨?_, ?_, rfl⟩ <;> (split <;> omega)

theorem run_calls_timer_invariant (cs : List RenderCall) :
    ∀ s : VisualizerState, 0 ≤ s.action_display_timer →
      s.action_display_timer ≤ 8 → s.fps = 4 →
      0 ≤ (run_calls s cs).action_display_timer ∧
        (run_calls s cs).action_display_timer ≤ 8 := by
  induction cs with
  | nil => exact fun s h0 h8 _ => ⟨h0, h8⟩
  | cons c cs ih =>
    intro s h0 h8 hfps
    obtain ⟨h0, h8, hf⟩ := render_call_timer_step s c h0 h8 hfps
    exact ih (render_call s c).1 h0 h8 hf

/-- C9: starting from a freshly constructed visualizer, the action
countdown is a non-negative integer invariant of every sequence of
`render` calls — it is reset only to `2 * fps = 8` when an action is
supplied and decremented only while strictly positive, so after any
call sequence it lies in `[0, 8]` and in particular never becomes
negative. -/
theorem C9_timer_never_negative (cs : List RenderCall) :
    0 ≤ (run_calls initState cs).action_display_timer ∧
      (run_calls initState cs).action_display_timer ≤ 8 :=
  run_calls_timer_invariant cs initState (by decide) (by decide) rfl

/-! ### C1 — visibility window of the "current action" callout -/

theorem render_call_agentPanel (s : VisualizerState) (c : RenderCall) :
    (render_call s c).2.1.agentPanel =
      agent_action_display
        (if 0 < (update_action_state s c.action).action_display_timer then
          (update_action_state s c.action).last_action
        else none) := rfl

/-- Along a run of `render` calls that all omit `action`, the agent
panel of the j-th call shows the recorded last action while the
countdown stays positive — that is, exactly while
`j < action_display_timer - 1` — and the waiting placeholder
afterwards. -/
theorem agent_displays_omitted (cs : List RenderCall) :
    ∀ (s : VisualizerState) (a : ℤ), (∀ c ∈ cs, c.action = none) →
      s.last_action = some a →
      agent_displays s cs =
        (List.range cs.length).map (fun (j : ℕ) =>
          if (j : ℤ) < s.action_display_timer - 1 then
            agent_action_display (some a)
          else AgentDisplay.waiting) := by
  induction cs with
  | nil => intro s a _ _; rfl
  | cons c cs ih =>
    intro s a h hla
    have hc : c.action = none := h c (List.mem_cons_self c cs)
    have hrest : ∀ x ∈ cs, x.action = none :=
      fun x hx => h x (List.mem_cons_of_mem c hx)
    have hut : (update_action_state s c.action).action_display_timer =
        if 0 < s.action_display_timer then s.action_display_timer - 1
        else s.action_display_timer := by
      rw [hc, update_timer_none]
    have hul : (update_action_state s c.action).last_action = some a := by
      rw [hc, update_last_action_none, hla]
    have h3t : (render_call s c).1.action_display_timer =
        (update_action_state s c.action).action_display_timer := rfl
    have h3l : (render_call s c).1.last_action =
        (update_action_state s c.action).last_action := rfl
    show (render_call s c).2.1.agentPanel ::
        agent_displays (render_call s c).1 cs = _
    rw [ih (render_call s c).1 a hrest (by rw [h3l, hul]),
      render_call_agentPanel, h3t, hut, hul, List.length_cons,
      List.range_succ_eq_map, List.map_cons, List.map_map]
    congr 1
    · by_cases h1 : 0 < s.action_display_timer
      · rw [if_pos h1]
        by_cases h2 : 0 < s.action_display_timer - 1
        · rw [if_pos h2, if_pos (by exact_mod_cast h2)]
        · rw [if_neg h2, if_neg (by push_cast; omega)]
          rfl
      · rw [if_neg h1, if_neg h1, if_neg (by push_cast; omega)]
        rfl
    · refine List.map_congr_left fun j hj => ?_
      by_cases h1 : 0 < s.action_display_timer
      · rw [if_pos h1]
        refine if_congr ?_ rfl rfl
        push_cast
        omega
      · rw [if_neg h1]
        refine if_congr ?_ rfl rfl
        push_cast
        omega

/-- C1 (amended): on a freshly-constructed visualizer, a render call
supplying an in-range action `a` (0 ≤ a < 7) draws the "current
action" callout on that call and on exactly `2 * frame_rate - 2 = 6`
subsequent render calls that omit `action`; from the 7th subsequent
call onwards the waiting placeholder is drawn again (the countdown is
set to `2 * fps = 8` but decremented once before the visibility test
on the supplying call and once more on each later call). -/
theorem C1_callout_window (a : ℤ) (h0 : 0 ≤ a) (h7 : a < 7)
    (c0 : RenderCall) (hc0 : c0.action = some a)
    (cs : List RenderCall) (h : ∀ c ∈ cs, c.action = none) :
    agent_displays initState (c0 :: cs) =
      AgentDisplay.callout (action_names.getD a.toNat "") ::
        (List.range cs.length).map (fun j =>
          if j < 6 then AgentDisplay.callout (action_names.getD a.toNat "")
          else AgentDisplay.waiting) := by
  have hlen : (action_names.length : ℤ) = 7 := rfl
  have hdisp : agent_action_display (some a) =
      AgentDisplay.callout (action_names.getD a.toNat "") := by
    simp only [agent_action_display]
    rw [if_pos ⟨h0, by rw [hlen]; exact h7⟩]
  have hut : (update_action_state initState c0.action).action_display_timer = 7 := by
    rw [hc0, update_timer_some]
    norm_num [initState]
  have hul : (update_action_state initState c0.action).last_action = some a := by
    rw [hc0, update_last_action_some]
  have h3t : (render_call initState c0).1.action_display_timer =
      (update_action_state initState c0.action).action_display_timer := rfl
  have h3l : (render_call initState c0).1.last_action =
      (update_action_state initState c0.action).last_action := rfl
  have htail :
      (List.range cs.length).map (fun (j : ℕ) =>
        if (j : ℤ) < 7 - 1 then AgentDisplay.callout (action_names.getD a.toNat "")
        else AgentDisplay.waiting) =
      (List.range cs.length).map (fun j =>
        if j < 6 then AgentDisplay.callout (action_names.getD a.toNat "")
        else AgentDisplay.waiting) := by
    refine List.map_congr_left fun j hj => ?_
    refine if_congr ?_ rfl rfl
    push_cast
    omega
  show (render_call initState c0).2.1.agentPanel ::
      agent_displays (render_call initState c0).1 cs = _
  rw [render_call_agentPanel, hut, hul,
    agent_displays_omitted cs (render_call initState c0).1 a h (by rw [h3l, hul]),
    h3t, hut, if_pos (by norm_num : (0:ℤ) < 7), hdisp, htail]

/-- C1 witness: action 2 on a fresh visualizer followed by eight
argument-free calls, via `C1_callout_window`. -/
theorem C1_witness :
    agent_displays initState (actionCall 2 :: List.replicate 8 noArgCall) =
      AgentDisplay.callout (action_names.getD (Int.toNat 2) "") ::
        (List.range (List.replicate 8 noArgCall).length).map (fun j =>
          if j < 6 then AgentDisplay.callout (action_names.getD (Int.toNat 2) "")
          else AgentDisplay.waiting) :=
  C1_callout_window 2 (by norm_num) (by norm_num) (actionCall 2) rfl
    (List.replicate 8 noArgCall)
    (fun c hc => by rw [List.eq_of_mem_replicate hc]; rfl)

/-- C1 counterexample: a fresh visualizer receives action 0 and then
eight render calls without an action.  The callout is drawn on the
supplying call and on only the first six subsequent calls; the 7th and
8th subsequent calls already show the waiting placeholder, so the
display sequence is not the nine callouts the claim requires (the
supplying call plus `2 * frame_rate = 8` subsequent calls). -/
theorem C1_counterexample :
    agent_displays initState (actionCall 0 :: List.replicate 8 noArgCall) =
      List.replicate 7 (AgentDisplay.callout "Keep current layout") ++
        List.replicate 2 AgentDisplay.waiting ∧
    agent_displays initState (actionCall 0 :: List.replicate 8 noArgCall) ≠
      List.replicate 9 (AgentDisplay.callout "Keep current layout") := by
  constructor
  · rfl
  · decide

end Rendering
